import Mathlib

set_option autoImplicit false

/-
Shallow embedding of the kite tenant-provisioning backend.

Sources embedded:
- src/apps/backend/src/tenant/kubernetes.service.ts
  (KubernetesService: createNamespace, createResources, deleteTenant,
   getComponentStatus, isPodReady, isPodError, isPodPending, isPodUnhealthy)
- src/apps/backend/src/tenant/tenant.resources.ts (resource names only)
- src/unnamed/part_005 (TenantService: createTenant, deleteTenant,
  listTenants, getAccessUrl, mapSecrets)
- src/unnamed/part_007 / tenant.dto.ts (TenantStatus, ComponentStatus, DTOs)

Conventions of the embedding:
- TypeScript thrown exceptions are modelled as `Except String`, the string
  being the error message.
- Kubernetes replica counts are JavaScript numbers holding integers; they are
  modelled as `Int` (subtraction may go negative, exactly as in JS), and the
  TS `?? 0` defaulting as `Option.getD 0`.
- The remote cluster is modelled as an oracle giving the outcome of each
  call; the calls actually issued are collected in a trace.
- The Prisma store is a list of tenant rows; `update`/`delete` with a
  `where` that matches nothing throw, `updateMany` does not, exactly as
  Prisma behaves.
-/

namespace Kite

/-- Tenant lifecycle status enum, from tenant.dto.ts (TenantStatus). -/
inductive TenantStatus where
  | PROVISIONING
  | READY
  | ERROR
  | DELETING
deriving DecidableEq, Repr

/-- Component health enum, from src/unnamed/part_007 (ComponentStatus). -/
inductive ComponentStatus where
  | RUNNING
  | PENDING
  | UNHEALTHY
  | ERROR
  | UNAVAILABLE
  | UNKNOWN
deriving DecidableEq, Repr

/-- A workload condition as read from the cluster (type, status, reason),
the fields of k8s V1DeploymentCondition / V1StatefulSetCondition the code
inspects. -/
structure K8sCondition where
  type : String
  status : String
  reason : Option String
deriving DecidableEq, Repr

/-- The fields of k8s V1DeploymentStatus that the classifier reads.
Counts are JS numbers (possibly absent), modelled as Option Int. -/
structure V1DeploymentStatus where
  replicas : Option Int
  availableReplicas : Option Int
  updatedReplicas : Option Int
  readyReplicas : Option Int
  unavailableReplicas : Option Int
  collisionCount : Option Int
  conditions : Option (List K8sCondition)
deriving DecidableEq, Repr

/-- The fields of k8s V1StatefulSetStatus that the classifier reads. -/
structure V1StatefulSetStatus where
  replicas : Option Int
  availableReplicas : Option Int
  readyReplicas : Option Int
  currentReplicas : Option Int
  conditions : Option (List K8sCondition)
deriving DecidableEq, Repr

/-- A deployment object as returned by readNamespacedDeployment; only the
status field is used. -/
structure V1Deployment where
  status : Option V1DeploymentStatus
deriving DecidableEq, Repr

/-- A StatefulSet object as returned by readNamespacedStatefulSet. -/
structure V1StatefulSet where
  status : Option V1StatefulSetStatus
deriving DecidableEq, Repr

/-- TenantComponentStatusDto from src/unnamed/part_007. -/
structure TenantComponentStatusDto where
  name : String
  status : ComponentStatus
  message : Option String
deriving DecidableEq, Repr

/-- isPodReady, kubernetes.service.ts lines 458-471. -/
def isPodReady (status : V1DeploymentStatus) : Bool :=
  let desiredReplicas := status.replicas.getD 0
  let availableReplicas := status.availableReplicas.getD 0
  let updatedReplicas := status.updatedReplicas.getD 0
  let readyReplicas := status.readyReplicas.getD 0
  let unavailableReplicas := status.unavailableReplicas.getD 0
  decide (availableReplicas = desiredReplicas ∧
    updatedReplicas = desiredReplicas ∧
    readyReplicas = desiredReplicas ∧
    unavailableReplicas = 0)

/-- isPodUnhealthy, kubernetes.service.ts lines 473-484. -/
def isPodUnhealthy (status : V1DeploymentStatus) : Bool :=
  let unavailableReplicas := status.unavailableReplicas.getD 0
  let updatedReplicas := status.updatedReplicas.getD 0
  let replicas := status.replicas.getD 0
  let readyReplicas := status.readyReplicas.getD 0
  decide (0 < unavailableReplicas ∨
    updatedReplicas < replicas ∨
    readyReplicas < replicas)

/-- isPodPending, kubernetes.service.ts lines 486-508. -/
def isPodPending (status : V1DeploymentStatus) : Bool :=
  let desiredReplicas := status.replicas.getD 0
  let availableReplicas := status.availableReplicas.getD 0
  let updatedReplicas := status.updatedReplicas.getD 0
  let readyReplicas := status.readyReplicas.getD 0
  let conditions := status.conditions.getD []
  let isProgressing := conditions.any (fun condition =>
    condition.type == "Progressing" && condition.status == "True" &&
      (condition.reason == some "NewReplicaSetAvailable" ||
        condition.reason == some "ReplicaSetUpdated"))
  isProgressing ||
    decide (0 < updatedReplicas ∧ updatedReplicas < desiredReplicas) ||
    decide (readyReplicas < desiredReplicas ∧ availableReplicas < desiredReplicas)

/-- isPodError, kubernetes.service.ts lines 510-517. -/
def isPodError (status : V1DeploymentStatus) : Bool :=
  let collisionCount := status.collisionCount.getD 0
  let conditions := status.conditions.getD []
  decide (0 < collisionCount) ||
    conditions.any (fun condition => condition.type == "Failed")

/-- JS template-literal rendering of a possibly-undefined number, used for
the message string built at kubernetes.service.ts line 366. -/
def jsShowOptInt : Option Int → String
  | none => "undefined"
  | some n => toString n

/-- The if/else-if chain over a deployment status inside getComponentStatus
(kubernetes.service.ts lines 350-374); `none` means no branch matched and
control falls through to the final Unknown return. -/
def classifyDeploymentStatus (component : String) (status : V1DeploymentStatus) :
    Option TenantComponentStatusDto :=
  if isPodReady status then
    some ⟨component, ComponentStatus.RUNNING, none⟩
  else if isPodError status then
    some ⟨component, ComponentStatus.ERROR, some "Pods are in error state"⟩
  else if isPodPending status then
    some ⟨component, ComponentStatus.PENDING,
      some (jsShowOptInt status.unavailableReplicas ++ " replicas are not yet ready")⟩
  else if isPodUnhealthy status then
    some ⟨component, ComponentStatus.UNHEALTHY, some "Pods are unhealthy"⟩
  else
    none

/-- The if/else-if chain over a StatefulSet status inside getComponentStatus
(kubernetes.service.ts lines 392-433); `none` means fall through to Unknown. -/
def classifyStatefulSetStatus (component : String) (status : V1StatefulSetStatus) :
    Option TenantComponentStatusDto :=
  let desiredReplicas := status.replicas.getD 0
  let availableReplicas := status.availableReplicas.getD 0
  let readyReplicas := status.readyReplicas.getD 0
  let currentReplicas := status.currentReplicas.getD 0
  if availableReplicas = desiredReplicas ∧
      readyReplicas = desiredReplicas ∧
      currentReplicas = desiredReplicas then
    some ⟨component, ComponentStatus.RUNNING, none⟩
  else if (status.conditions.getD []).any (fun c => c.type == "Failed") then
    some ⟨component, ComponentStatus.ERROR, some "Pods are in error state"⟩
  else if availableReplicas < desiredReplicas ∨
      readyReplicas < desiredReplicas ∨
      currentReplicas < desiredReplicas then
    some ⟨component, ComponentStatus.PENDING,
      some (toString (desiredReplicas - availableReplicas) ++ " replicas are not yet ready")⟩
  else if (status.conditions.getD []).any (fun c =>
      c.type == "Progressing" && c.status == "False") then
    some ⟨component, ComponentStatus.UNHEALTHY, some "Pods are unhealthy"⟩
  else
    none

/-- getComponentStatus, kubernetes.service.ts lines 327-456.
The two cluster reads (readNamespacedDeployment / readNamespacedStatefulSet,
for this component in the tenant namespace) are passed in as their
outcomes: an object, or a thrown error message. The TS outer try/catch is
the final match; the inner try/catch pair is the match on the two read
outcomes. The return type is Except so that a thrown exception, if any path
produced one, would be visible as `Except.error`. -/
def getComponentStatus (component : String)
    (readDeployment : Except String V1Deployment)
    (readStatefulSet : Except String V1StatefulSet) :
    Except String TenantComponentStatusDto :=
  let body : Except String (Option TenantComponentStatusDto) :=
    match readDeployment with
    | Except.ok deployment =>
      match deployment.status with
      | none => Except.ok (some ⟨component, ComponentStatus.UNAVAILABLE,
          some "No status available"⟩)
      | some status => Except.ok (classifyDeploymentStatus component status)
    | Except.error _ =>
      match readStatefulSet with
      | Except.ok statefulSet =>
        match statefulSet.status with
        | none => Except.ok (some ⟨component, ComponentStatus.UNAVAILABLE,
            some "No status available"⟩)
        | some status => Except.ok (classifyStatefulSetStatus component status)
      | Except.error _ =>
        Except.ok (some ⟨component, ComponentStatus.ERROR,
          some "Component not found"⟩)
  match body with
  | Except.ok (some dto) => Except.ok dto
  | Except.ok none =>
    Except.ok ⟨component, ComponentStatus.UNKNOWN, some "Unknown status"⟩
  | Except.error e =>
    Except.ok ⟨component, ComponentStatus.ERROR, some e⟩

/-- A Prisma Tenant row (persisted tenant record, spec section 6: id, name,
status, createdAt, updatedAt, postgresPassword, minioAccessKey,
minioSecretKey, plus the owning user relation). The three credential
columns are nullable and unset at creation. -/
structure Tenant where
  id : String
  name : String
  status : TenantStatus
  userId : String
  postgresPassword : Option String
  minioAccessKey : Option String
  minioSecretKey : Option String
  createdAt : Nat
  updatedAt : Nat
deriving DecidableEq, Repr

/-- TenantSecretDto from tenant.dto.ts. -/
structure TenantSecretDto where
  key : String
  value : String
deriving DecidableEq, Repr

/-- TenantDto from tenant.dto.ts. -/
structure TenantDto where
  id : String
  name : String
  status : TenantStatus
  accessUrl : Option String
  createdAt : Nat
  updatedAt : Nat
  secrets : List TenantSecretDto
deriving DecidableEq, Repr

/-- The configuration values TenantService reads (environment.ts keys
clusterUseTLS and clusterDomain). -/
structure AppConfig where
  clusterUseTLS : Bool
  clusterDomain : String
deriving DecidableEq, Repr

/-- JS String(x) applied to a nullable string column: String(null) is the
string "null". Used by mapSecrets on unset credential fields. -/
def jsStringOfNullable : Option String → String
  | none => "null"
  | some s => s

/-- mapSecrets, src/unnamed/part_005 lines 144-151: the three credential
columns of a tenant row, coerced to strings. -/
def mapSecrets (tenant : Tenant) : List TenantSecretDto :=
  [⟨"postgresPassword", jsStringOfNullable tenant.postgresPassword⟩,
   ⟨"minioAccessKey", jsStringOfNullable tenant.minioAccessKey⟩,
   ⟨"minioSecretKey", jsStringOfNullable tenant.minioSecretKey⟩]

/-- getAccessUrl, src/unnamed/part_005 lines 137-142. -/
def getAccessUrl (cfg : AppConfig) (tenantId : String) : String :=
  (if cfg.clusterUseTLS then "https" else "http") ++ "://" ++ tenantId ++ "." ++
    cfg.clusterDomain

/-- getNamespaceName, kubernetes.service.ts lines 316-318. -/
def getNamespaceName (tenantId : String) : String :=
  "tenant-" ++ tenantId

/-- The kind of a manifest applied to the cluster. -/
inductive ResourceKind where
  | namespaceResource
  | statefulSet
  | deployment
  | service
  | ingress
deriving DecidableEq, Repr

/-- A manifest identified by kind and metadata.name. -/
structure ResourceRef where
  kind : ResourceKind
  name : String
deriving DecidableEq, Repr

/-- The single call made by createNamespace (kubernetes.service.ts lines
45-53); the namespace manifest is getNamespace tenantId, whose name is
tenant-<id>. -/
def createNamespaceCall (tenantId : String) : ResourceRef :=
  ⟨ResourceKind.namespaceResource, getNamespaceName tenantId⟩

/-- The calls made by createResources (kubernetes.service.ts lines 55-305),
in their source order: the statefulSets loop over [postgres, minio], the
deployments loop over [backend, frontend], the services loop over
[postgres, minio, backend, frontend], then the ingresses loop over
[ingress, cdnIngress]; ingress names come from getIngress in
tenant.resources.ts: ingress-<p>-<tenantId> for p = "" and "cdn". -/
def createResourcesCalls (tenantId : String) : List ResourceRef :=
  [⟨ResourceKind.statefulSet, "postgres"⟩,
   ⟨ResourceKind.statefulSet, "minio"⟩,
   ⟨ResourceKind.deployment, "backend"⟩,
   ⟨ResourceKind.deployment, "frontend"⟩,
   ⟨ResourceKind.service, "postgres"⟩,
   ⟨ResourceKind.service, "minio"⟩,
   ⟨ResourceKind.service, "backend"⟩,
   ⟨ResourceKind.service, "frontend"⟩,
   ⟨ResourceKind.ingress, "ingress--" ++ tenantId⟩,
   ⟨ResourceKind.ingress, "ingress-cdn-" ++ tenantId⟩]

/-- The full apply sequence of one create: createNamespace then
createResources (TenantService.createTenant lines 46-53). -/
def provisionCalls (tenantId : String) : List ResourceRef :=
  createNamespaceCall tenantId :: createResourcesCalls tenantId

/-- The behaviour of the cluster control-plane API: the outcome of applying
each manifest, and of deleting each namespace by name. -/
structure Cluster where
  applyOutcome : ResourceRef → Except String Unit
  deleteNamespaceOutcome : String → Except String Unit

/-- A call issued against the cluster, as recorded in an operation trace. -/
inductive ClusterCall where
  | apply (r : ResourceRef)
  | deleteNamespace (name : String)
deriving DecidableEq, Repr

/-- Sequentially apply a list of manifests, awaiting each remote call; a
thrown error aborts the remaining calls. Returns the calls actually issued
(in order) and the overall outcome. This is the shared shape of
createNamespace plus the four sequential for-await loops of
createResources. -/
def applyAll (cluster : Cluster) : List ResourceRef → List ResourceRef × Except String Unit
  | [] => ([], Except.ok ())
  | r :: rs =>
    match cluster.applyOutcome r with
    | Except.error e => ([r], Except.error e)
    | Except.ok _ =>
      let rest := applyAll cluster rs
      (r :: rest.1, rest.2)

/-- Prisma tenant.update with where id: maps the matching row; Prisma
throws if no row matches the where clause, otherwise returns the updated
row. -/
def prismaUpdate (store : List Tenant) (id : String) (patch : Tenant → Tenant) :
    Except String (List Tenant × Tenant) :=
  match store.find? (fun t => t.id == id) with
  | none => Except.error "Record to update not found."
  | some t =>
    Except.ok (store.map (fun u => if u.id == id then patch u else u), patch t)

/-- Prisma tenant.updateMany with a where filter: updates every matching
row, never throws. -/
def prismaUpdateMany (store : List Tenant) (filter : Tenant → Bool)
    (patch : Tenant → Tenant) : List Tenant :=
  store.map (fun t => if filter t then patch t else t)

/-- Prisma tenant.delete with where by id and owning user: removes the
matching row; throws if no row matches. -/
def prismaDeleteWhere (store : List Tenant) (tenantId userId : String) :
    Except String (List Tenant) :=
  if store.any (fun t => t.id == tenantId && t.userId == userId) then
    Except.ok (store.filter (fun t => !(t.id == tenantId && t.userId == userId)))
  else
    Except.error "Record to delete does not exist."

/-- Result of one createTenant run: the final store, the cluster calls
issued, and the returned dto or the exception the promise rejected with. -/
structure CreateResult where
  store : List Tenant
  calls : List ClusterCall
  result : Except String TenantDto
deriving Repr

/-- TenantService.createTenant, src/unnamed/part_005 lines 23-92.
Nondeterministic inputs are passed explicitly: the id the store assigns to
the new row (newId), the creation timestamp (now), the three generated
credentials (crypto.randomBytes outputs), and the cluster behaviour.
The try block covers the namespace/resource creation and the READY update;
the catch block persists ERROR, issues the compensating namespace delete
(not guarded by any inner try, so its failure rejects the whole call) and
otherwise returns the updated row as an Error-state dto built with
mapSecrets of that row. On success the dto is built from the original
`tenant` row (credentials still unset). -/
def createTenant (store : List Tenant) (userId name : String)
    (newId : String) (now : Nat)
    (postgresPassword minioAccessKey minioSecretKey : String)
    (cfg : AppConfig) (cluster : Cluster) : CreateResult :=
  let tenant : Tenant :=
    ⟨newId, name, TenantStatus.PROVISIONING, userId, none, none, none, now, now⟩
  let store1 := store ++ [tenant]
  let appliedPair := applyAll cluster (provisionCalls tenant.id)
  let applyCalls := appliedPair.1.map ClusterCall.apply
  let tryOutcome : Except String (List Tenant × TenantDto) :=
    match appliedPair.2 with
    | Except.error e => Except.error e
    | Except.ok _ =>
      match prismaUpdate store1 tenant.id (fun t =>
          { t with status := TenantStatus.READY,
                   postgresPassword := some postgresPassword,
                   minioAccessKey := some minioAccessKey,
                   minioSecretKey := some minioSecretKey }) with
      | Except.error e => Except.error e
      | Except.ok (store2, _) =>
        Except.ok (store2,
          { id := tenant.id, name := tenant.name,
            status := TenantStatus.READY,
            accessUrl := some (getAccessUrl cfg tenant.id),
            createdAt := tenant.createdAt, updatedAt := tenant.updatedAt,
            secrets := mapSecrets tenant })
  match tryOutcome with
  | Except.ok (store2, dto) => ⟨store2, applyCalls, Except.ok dto⟩
  | Except.error _ =>
    match prismaUpdate store1 tenant.id (fun t =>
        { t with status := TenantStatus.ERROR }) with
    | Except.error e => ⟨store1, applyCalls, Except.error e⟩
    | Except.ok (store2, updatedTenant) =>
      let calls := applyCalls ++
        [ClusterCall.deleteNamespace (getNamespaceName tenant.id)]
      match cluster.deleteNamespaceOutcome (getNamespaceName tenant.id) with
      | Except.error e => ⟨store2, calls, Except.error e⟩
      | Except.ok _ =>
        ⟨store2, calls, Except.ok
          { id := updatedTenant.id, name := updatedTenant.name,
            status := updatedTenant.status,
            accessUrl := none,
            createdAt := updatedTenant.createdAt,
            updatedAt := updatedTenant.updatedAt,
            secrets := mapSecrets updatedTenant }⟩

/-- Result of one deleteTenant run: final store, cluster calls issued,
error messages swallowed by the catch block (console.error), and the
outcome. -/
structure DeleteResult where
  store : List Tenant
  calls : List ClusterCall
  loggedErrors : List String
  result : Except String Unit
deriving Repr

/-- TenantService.deleteTenant, src/unnamed/part_005 lines 94-112.
Step 1 is an ownership-filtered updateMany setting DELETING; step 2 issues
the cluster namespace deletion unconditionally (KubernetesService
.deleteTenant, kubernetes.service.ts lines 307-314), its failure swallowed
by the try/catch that only logs; step 3 is an ownership-filtered delete of
the row, which throws if nothing matches. -/
def deleteTenant (store : List Tenant) (userId tenantId : String)
    (cluster : Cluster) : DeleteResult :=
  let store1 := prismaUpdateMany store
    (fun t => t.id == tenantId && t.userId == userId)
    (fun t => { t with status := TenantStatus.DELETING })
  let namespaceName := getNamespaceName tenantId
  let calls := [ClusterCall.deleteNamespace namespaceName]
  let logged :=
    match cluster.deleteNamespaceOutcome namespaceName with
    | Except.error e =>
      ["Failed to delete Kubernetes resources for tenant " ++ tenantId ++ ": " ++ e]
    | Except.ok _ => []
  match prismaDeleteWhere store1 tenantId userId with
  | Except.error e => ⟨store1, calls, logged, Except.error e⟩
  | Except.ok store2 => ⟨store2, calls, logged, Except.ok ()⟩

/-- TenantService.listTenants, src/unnamed/part_005 lines 114-135: findMany
filtered by the owning user, mapped to dtos; accessUrl only when READY. -/
def listTenants (store : List Tenant) (userId : String) (cfg : AppConfig) :
    List TenantDto :=
  (store.filter (fun t => t.userId == userId)).map (fun t =>
    { id := t.id, name := t.name, status := t.status,
      accessUrl := if t.status = TenantStatus.READY
        then some (getAccessUrl cfg t.id) else none,
      createdAt := t.createdAt, updatedAt := t.updatedAt,
      secrets := mapSecrets t })

/-- Clusters used as concrete witnesses: every call succeeds. -/
def allOkCluster : Cluster :=
  ⟨fun _ => Except.ok (), fun _ => Except.ok ()⟩

/-- C3: For every component name and every behaviour of the two cluster
lookups, including lookups that throw, getComponentStatus returns a
classified component-status value and never propagates an exception to its
caller: the result is always Except.ok of some dto, for all lookup
outcomes. -/
theorem c3_status_query_total (component : String)
    (readDeployment : Except String V1Deployment)
    (readStatefulSet : Except String V1StatefulSet) :
    ∃ dto, getComponentStatus component readDeployment readStatefulSet =
      Except.ok dto := by
  cases readDeployment with
  | error e1 =>
    cases readStatefulSet with
    | error e2 => exact ⟨_, rfl⟩
    | ok statefulSet =>
      cases hs : statefulSet.status with
      | none =>
        exact ⟨⟨component, ComponentStatus.UNAVAILABLE, some "No status available"⟩,
          by simp [getComponentStatus, hs]⟩
      | some status =>
        cases hc : classifyStatefulSetStatus component status with
        | none =>
          exact ⟨⟨component, ComponentStatus.UNKNOWN, some "Unknown status"⟩,
            by simp [getComponentStatus, hs, hc]⟩
        | some dto => exact ⟨dto, by simp [getComponentStatus, hs, hc]⟩
  | ok deployment =>
    cases hd : deployment.status with
    | none =>
      exact ⟨⟨component, ComponentStatus.UNAVAILABLE, some "No status available"⟩,
        by simp [getComponentStatus, hd]⟩
    | some status =>
      cases hc : classifyDeploymentStatus component status with
      | none =>
        exact ⟨⟨component, ComponentStatus.UNKNOWN, some "Unknown status"⟩,
          by simp [getComponentStatus, hd, hc]⟩
      | some dto => exact ⟨dto, by simp [getComponentStatus, hd, hc]⟩

/-- C8: If the deployment lookup throws and the StatefulSet fallback lookup
also throws, getComponentStatus returns status Error with the message
"Component not found", whatever the two underlying errors were. -/
theorem c8_not_found_both_kinds (component e1 e2 : String) :
    getComponentStatus component (Except.error e1) (Except.error e2) =
      Except.ok ⟨component, ComponentStatus.ERROR, some "Component not found"⟩ :=
  rfl

/-- Deployment status used to refute C4: every replica count equals the
desired count, unavailable is 0, collision count 0, and a condition of type
"Failed" is present. -/
def c4FailedButReadyStatus : V1DeploymentStatus :=
  ⟨some 1, some 1, some 1, some 1, some 0, some 0, some [⟨"Failed", "True", none⟩]⟩

/-- C4 counterexample: with a "Failed" condition present but all replica
counts equal to desired and unavailable 0, the classifier returns Running,
not Error: the Running check is evaluated before the Error check. -/
theorem c4_counterexample :
    getComponentStatus "backend" (Except.ok ⟨some c4FailedButReadyStatus⟩)
        (Except.error "unused") =
      Except.ok ⟨"backend", ComponentStatus.RUNNING, none⟩ ∧
    ComponentStatus.RUNNING ≠ ComponentStatus.ERROR := by
  exact ⟨rfl, by decide⟩

/-- C4 amended: for every deployment status in which some condition has
type "Failed", the classifier returns Error provided the Running check does
not fire; when available, updated and ready replicas all equal the desired
count and unavailable replicas equal 0, the Running check fires first and
the classifier returns Running despite the Failed condition. -/
theorem c4_failed_condition_amended (component : String)
    (status : V1DeploymentStatus)
    (hfailed : ∃ c ∈ status.conditions.getD [], c.type = "Failed")
    (hnotready : isPodReady status = false) :
    classifyDeploymentStatus component status =
      some ⟨component, ComponentStatus.ERROR, some "Pods are in error state"⟩ := by
  have herr : isPodError status = true := by
    obtain ⟨c, hc, htype⟩ := hfailed
    unfold isPodError
    refine Bool.or_eq_true _ _ |>.mpr (Or.inr ?_)
    exact List.any_eq_true.mpr ⟨c, hc, by simp [htype]⟩
  unfold classifyDeploymentStatus
  simp [hnotready, herr]

/-- Closed witness for the C4 amended theorem: desired 1, ready 0, with a
Failed condition, classifies as Error. -/
theorem c4_failed_condition_amended_witness :
    classifyDeploymentStatus "backend"
        ⟨some 1, some 0, some 0, some 0, some 1, some 0,
          some [⟨"Failed", "True", none⟩]⟩ =
      some ⟨"backend", ComponentStatus.ERROR, some "Pods are in error state"⟩ :=
  c4_failed_condition_amended "backend"
    ⟨some 1, some 0, some 0, some 0, some 1, some 0, some [⟨"Failed", "True", none⟩]⟩
    ⟨⟨"Failed", "True", none⟩, by decide, rfl⟩ (by decide)

/-- C5: a deployment status with desired 3, available 1, updated 1,
ready 1, unavailable 2, collision count 0 and no "Failed" condition
classifies as Pending (so in particular not Unhealthy): the Pending check
is evaluated before the Unhealthy check and unavailable greater than 0
alone does not override it. -/
theorem c5_pending_precedence (component : String) (conds : List K8sCondition)
    (hnofail : ∀ c ∈ conds, c.type ≠ "Failed") :
    classifyDeploymentStatus component
        ⟨some 3, some 1, some 1, some 1, some 2, some 0, some conds⟩ =
      some ⟨component, ComponentStatus.PENDING,
        some "2 replicas are not yet ready"⟩ := by
  have hready : isPodReady ⟨some 3, some 1, some 1, some 1, some 2, some 0, some conds⟩
      = false := rfl
  have herr : isPodError ⟨some 3, some 1, some 1, some 1, some 2, some 0, some conds⟩
      = false := by
    unfold isPodError
    simp only [Bool.or_eq_false_iff]
    refine ⟨rfl, ?_⟩
    refine List.any_eq_false.mpr ?_
    intro c hc
    simpa using hnofail c hc
  have hpend : isPodPending ⟨some 3, some 1, some 1, some 1, some 2, some 0, some conds⟩
      = true := by
    unfold isPodPending
    simp
  unfold classifyDeploymentStatus
  simp [hready, herr, hpend, jsShowOptInt]
  decide

/-- Closed witness for C5, at the empty condition list. -/
theorem c5_pending_precedence_witness :
    classifyDeploymentStatus "backend"
        ⟨some 3, some 1, some 1, some 1, some 2, some 0, some []⟩ =
      some ⟨"backend", ComponentStatus.PENDING,
        some "2 replicas are not yet ready"⟩ :=
  c5_pending_precedence "backend" [] (by intro c hc; cases hc)

lemma applyAll_trace_take (cluster : Cluster) (rs : List ResourceRef) :
    ∃ n, (applyAll cluster rs).1 = rs.take n := by
  induction rs with
  | nil => exact ⟨0, rfl⟩
  | cons r rs ih =>
    cases h : cluster.applyOutcome r with
    | error e => exact ⟨1, by simp [applyAll, h]⟩
    | ok u =>
      obtain ⟨n, hn⟩ := ih
      exact ⟨n + 1, by simp [applyAll, h, hn]⟩

lemma applyAll_ok_full (cluster : Cluster) (rs : List ResourceRef)
    (h : (applyAll cluster rs).2 = Except.ok ()) :
    (applyAll cluster rs).1 = rs := by
  induction rs with
  | nil => rfl
  | cons r rs ih =>
    cases hr : cluster.applyOutcome r with
    | error e => simp [applyAll, hr] at h
    | ok u =>
      simp only [applyAll, hr] at h ⊢
      simpa using ih h

lemma applyAll_error_first (cluster : Cluster) (rs : List ResourceRef) (e : String)
    (h : (applyAll cluster rs).2 = Except.error e) :
    ∃ pre fail, (applyAll cluster rs).1 = pre ++ [fail] ∧
      cluster.applyOutcome fail = Except.error e ∧
      ∀ r ∈ pre, cluster.applyOutcome r = Except.ok () := by
  induction rs with
  | nil => simp [applyAll] at h
  | cons r rs ih =>
    cases hr : cluster.applyOutcome r with
    | error e0 =>
      simp only [applyAll, hr] at h
      cases h
      exact ⟨[], r, by simp [applyAll, hr], hr, by intro x hx; cases hx⟩
    | ok u =>
      cases u
      simp only [applyAll, hr] at h
      obtain ⟨pre, fail, h1, h2, h3⟩ := ih h
      refine ⟨r :: pre, fail, ?_, h2, ?_⟩
      · simp [applyAll, hr, h1]
      · intro x hx
        rcases List.mem_cons.mp hx with rfl | hx
        · exact hr
        · exact h3 x hx

lemma find?_id_append_fresh (store : List Tenant) (x : Tenant) (i : String)
    (h : ∀ t ∈ store, t.id ≠ i) :
    (store ++ [x]).find? (fun t => t.id == i) =
      if x.id == i then some x else none := by
  induction store with
  | nil => cases hx : (x.id == i) <;> simp [List.find?, hx]
  | cons y l ih =>
    have hy : (y.id == i) = false :=
      beq_eq_false_iff_ne.mpr (h y (List.mem_cons_self y l))
    simpa [List.find?, hy] using ih (fun t ht => h t (List.mem_cons_of_mem y ht))

lemma map_patch_append_fresh (store : List Tenant) (x : Tenant) (i : String)
    (f : Tenant → Tenant) (h : ∀ t ∈ store, t.id ≠ i) :
    (store ++ [x]).map (fun u => if u.id == i then f u else u) =
      store ++ [if x.id == i then f x else x] := by
  rw [List.map_append]
  have hfix : ∀ t ∈ store, (fun u => if u.id == i then f u else u) t = id t := by
    intro t ht
    simp [beq_eq_false_iff_ne.mpr (h t ht)]
  rw [List.map_congr_left hfix, List.map_id]
  simp

lemma prismaUpdate_append_fresh (store : List Tenant) (x : Tenant)
    (f : Tenant → Tenant) (h : ∀ t ∈ store, t.id ≠ x.id) :
    prismaUpdate (store ++ [x]) x.id f = Except.ok (store ++ [f x], f x) := by
  unfold prismaUpdate
  rw [find?_id_append_fresh store x x.id h]
  rw [map_patch_append_fresh store x x.id f h]
  simp

lemma any_setDeleting (store : List Tenant) (tid uid : String) :
    (prismaUpdateMany store (fun t => t.id == tid && t.userId == uid)
        (fun t => { t with status := TenantStatus.DELETING })).any
      (fun t => t.id == tid && t.userId == uid) =
    store.any (fun t => t.id == tid && t.userId == uid) := by
  unfold prismaUpdateMany
  induction store with
  | nil => rfl
  | cons t l ih =>
    simp only [List.map_cons, List.any_cons, ih]
    congr 1
    split <;> rfl

/-- Tenant row used for the C2 failing input: owned by user u1. -/
def c2OwnerRow : Tenant :=
  ⟨"t1", "acme", TenantStatus.READY, "u1", none, none, none, 0, 0⟩

/-- C2, failing input: user u2 deletes tenant t1, which belongs to u1.
The record status is not set to Deleting and the record is not removed
(the delete rejects), but the namespace deletion for tenant-t1 IS issued
against the cluster: the cluster call carries no ownership check. -/
theorem c2_unowned_delete_issues_cluster_call :
    (deleteTenant [c2OwnerRow] "u2" "t1" allOkCluster).calls =
        [ClusterCall.deleteNamespace "tenant-t1"] ∧
    (deleteTenant [c2OwnerRow] "u2" "t1" allOkCluster).store = [c2OwnerRow] ∧
    (deleteTenant [c2OwnerRow] "u2" "t1" allOkCluster).result =
        Except.error "Record to delete does not exist." :=
  ⟨rfl, rfl, rfl⟩

/-- C7: deleting an owned tenant while the cluster namespace deletion
throws: the error is absorbed into the log, the record is still removed
from the store, and the operation completes without raising the cluster
error. -/
theorem c7_delete_absorbs_cluster_error (store : List Tenant)
    (userId tenantId : String) (cluster : Cluster) (e : String)
    (howned : store.any (fun t => t.id == tenantId && t.userId == userId) = true)
    (hfail : cluster.deleteNamespaceOutcome (getNamespaceName tenantId) =
      Except.error e) :
    (deleteTenant store userId tenantId cluster).result = Except.ok () ∧
    (∀ t ∈ (deleteTenant store userId tenantId cluster).store,
      ¬(t.id = tenantId ∧ t.userId = userId)) ∧
    (deleteTenant store userId tenantId cluster).loggedErrors =
      ["Failed to delete Kubernetes resources for tenant " ++ tenantId ++ ": " ++ e] := by
  have hany := any_setDeleting store tenantId userId
  rw [howned] at hany
  simp only [deleteTenant, prismaDeleteWhere, hfail, hany, if_true]
  refine ⟨trivial, ?_, trivial⟩
  intro t ht
  have := List.mem_filter.mp ht
  intro hcontra
  have hpred : (t.id == tenantId && t.userId == userId) = true := by
    simp [hcontra.1, hcontra.2]
  simp [hpred] at this

/-- Tenant row used for the C7 witness. -/
def c7OwnedRow : Tenant :=
  ⟨"t1", "acme", TenantStatus.READY, "u1", none, none, none, 0, 0⟩

/-- Cluster whose namespace deletion always throws, used for the C7
witness. -/
def deleteFailsCluster : Cluster :=
  ⟨fun _ => Except.ok (), fun _ => Except.error "namespace delete failed"⟩

/-- Closed witness for C7: user u1 deletes its own tenant t1 while the
cluster delete throws. -/
theorem c7_delete_absorbs_cluster_error_witness :
    (deleteTenant [c7OwnedRow] "u1" "t1" deleteFailsCluster).result =
        Except.ok () ∧
    (∀ t ∈ (deleteTenant [c7OwnedRow] "u1" "t1" deleteFailsCluster).store,
      ¬(t.id = "t1" ∧ t.userId = "u1")) ∧
    (deleteTenant [c7OwnedRow] "u1" "t1" deleteFailsCluster).loggedErrors =
      ["Failed to delete Kubernetes resources for tenant " ++ "t1" ++ ": " ++
        "namespace delete failed"] :=
  c7_delete_absorbs_cluster_error [c7OwnedRow] "u1" "t1" deleteFailsCluster
    "namespace delete failed" (by decide) rfl

/-- C9: every tenant returned by the list operation comes from a store row
owned by the requesting identity, and its accessUrl is the computed access
URL exactly when its status is Ready, otherwise null. -/
theorem c9_list_owner_and_access_url (store : List Tenant) (userId : String)
    (cfg : AppConfig) (dto : TenantDto)
    (hmem : dto ∈ listTenants store userId cfg) :
    ∃ t, t ∈ store ∧ t.userId = userId ∧ dto.id = t.id ∧ dto.status = t.status ∧
      (dto.accessUrl = some (getAccessUrl cfg dto.id) ↔
        dto.status = TenantStatus.READY) ∧
      (dto.status ≠ TenantStatus.READY → dto.accessUrl = none) := by
  unfold listTenants at hmem
  obtain ⟨t, htmem, rfl⟩ := List.mem_map.mp hmem
  obtain ⟨hts, htu⟩ := List.mem_filter.mp htmem
  refine ⟨t, hts, by simpa using htu, rfl, rfl, ?_, ?_⟩
  · by_cases h : t.status = TenantStatus.READY
    · simp [h]
    · simp [h]
  · intro h
    simp only [h]
    simp [h]

/-- Store, config and expected dto for the C9 witness. -/
def c9Store : List Tenant :=
  [⟨"t1", "acme", TenantStatus.READY, "u1", none, none, none, 0, 0⟩]

def c9Cfg : AppConfig := ⟨true, "example.com"⟩

def c9Dto : TenantDto :=
  ⟨"t1", "acme", TenantStatus.READY, some "https://t1.example.com", 0, 0,
   [⟨"postgresPassword", "null"⟩, ⟨"minioAccessKey", "null"⟩,
    ⟨"minioSecretKey", "null"⟩]⟩

/-- Closed witness for C9 at a one-row store. -/
theorem c9_list_owner_and_access_url_witness :
    ∃ t, t ∈ c9Store ∧ t.userId = "u1" ∧ c9Dto.id = t.id ∧
      c9Dto.status = t.status ∧
      (c9Dto.accessUrl = some (getAccessUrl c9Cfg c9Dto.id) ↔
        c9Dto.status = TenantStatus.READY) ∧
      (c9Dto.status ≠ TenantStatus.READY → c9Dto.accessUrl = none) :=
  c9_list_owner_and_access_url c9Store "u1" c9Cfg c9Dto (by decide)

/-- Cluster for the C6 counterexample: applying the postgres StatefulSet
throws "boom", everything else succeeds. -/
def stsFailCluster : Cluster :=
  ⟨fun r => if r = ⟨ResourceKind.statefulSet, "postgres"⟩
    then Except.error "boom" else Except.ok (),
   fun _ => Except.ok ()⟩

/-- Cluster for the C6 counterexample: applying the backend Deployment
throws "boom", everything else succeeds. -/
def deployFailCluster : Cluster :=
  ⟨fun r => if r = ⟨ResourceKind.deployment, "backend"⟩
    then Except.error "boom" else Except.ok (),
   fun _ => Except.ok ()⟩

/-- C6 counterexample: two runs that fail at different manifests (the
postgres StatefulSet versus the backend Deployment) report the identical
failure "boom" to the caller, so the reported failure does not identify the
manifest kind and name that failed: the orchestrator propagates the failing
own error of the failing call, unchanged. -/
theorem c6_counterexample :
    (applyAll stsFailCluster (provisionCalls "t1")).2 = Except.error "boom" ∧
    (applyAll deployFailCluster (provisionCalls "t1")).2 = Except.error "boom" ∧
    (applyAll stsFailCluster (provisionCalls "t1")).1 ≠
      (applyAll deployFailCluster (provisionCalls "t1")).1 :=
  ⟨rfl, rfl, by decide⟩

/-- C6 amended: a create applies resources in the strict order namespace,
postgres StatefulSet, minio StatefulSet, backend Deployment, frontend
Deployment, the four Services, the two Ingresses; the calls issued are an
initial segment of that order, all of it on success; on failure no later
step is attempted, every earlier step succeeded, and the error reported to
the caller is the own error of the failing call, with no manifest kind or name
attached by the orchestrator. -/
theorem c6_apply_order_amended (cluster : Cluster) (tenantId : String)
    (trace : List ResourceRef) (res : Except String Unit)
    (hrun : applyAll cluster (provisionCalls tenantId) = (trace, res)) :
    provisionCalls tenantId =
      [⟨ResourceKind.namespaceResource, "tenant-" ++ tenantId⟩,
       ⟨ResourceKind.statefulSet, "postgres"⟩,
       ⟨ResourceKind.statefulSet, "minio"⟩,
       ⟨ResourceKind.deployment, "backend"⟩,
       ⟨ResourceKind.deployment, "frontend"⟩,
       ⟨ResourceKind.service, "postgres"⟩,
       ⟨ResourceKind.service, "minio"⟩,
       ⟨ResourceKind.service, "backend"⟩,
       ⟨ResourceKind.service, "frontend"⟩,
       ⟨ResourceKind.ingress, "ingress--" ++ tenantId⟩,
       ⟨ResourceKind.ingress, "ingress-cdn-" ++ tenantId⟩] ∧
    (∃ n, trace = (provisionCalls tenantId).take n) ∧
    (res = Except.ok () → trace = provisionCalls tenantId) ∧
    (∀ e, res = Except.error e → ∃ pre fail, trace = pre ++ [fail] ∧
      cluster.applyOutcome fail = Except.error e ∧
      ∀ r ∈ pre, cluster.applyOutcome r = Except.ok ()) := by
  have h1 : trace = (applyAll cluster (provisionCalls tenantId)).1 := by
    rw [hrun]
  have h2 : res = (applyAll cluster (provisionCalls tenantId)).2 := by
    rw [hrun]
  subst h1
  subst h2
  refine ⟨rfl, applyAll_trace_take cluster _, ?_, ?_⟩
  · intro hok
    exact applyAll_ok_full cluster _ hok
  · intro e herr
    exact applyAll_error_first cluster _ e herr

/-- Closed witness for C6 amended: under the all-success cluster the full
sequence is applied in order. -/
theorem c6_apply_order_amended_witness :
    (applyAll allOkCluster (provisionCalls "t1")).1 = provisionCalls "t1" :=
  (c6_apply_order_amended allOkCluster "t1"
      (applyAll allOkCluster (provisionCalls "t1")).1
      (applyAll allOkCluster (provisionCalls "t1")).2 rfl).2.2.1 rfl

/-- Recognizes a namespace-deletion call in a cluster trace. -/
def ClusterCall.isDeleteNamespaceCall : ClusterCall → Bool
  | ClusterCall.deleteNamespace _ => true
  | ClusterCall.apply _ => false

lemma filter_isDelete_map_apply (l : List ResourceRef) :
    (l.map ClusterCall.apply).filter ClusterCall.isDeleteNamespaceCall = [] := by
  induction l with
  | nil => rfl
  | cons r rs ih =>
    simp [ClusterCall.isDeleteNamespaceCall, ih]

/-- Cluster for the C1 counterexample: provisioning fails at the very first
call and the compensating namespace deletion fails too. -/
def compensationFailsCluster : Cluster :=
  ⟨fun _ => Except.error "nsboom", fun _ => Except.error "delboom"⟩

/-- C1 counterexample: when the compensating namespace deletion itself
throws, createTenant does not return the Error-state tenant: the
own error of the compensating delete propagates to the caller (the promise
rejects with it), masking the original provisioning error, even though the
Error status was persisted. -/
theorem c1_counterexample :
    (createTenant [] "user-1" "acme" "t1" 0 "pg" "ak" "sk" ⟨true, "example.com"⟩
        compensationFailsCluster).result = Except.error "delboom" ∧
    (createTenant [] "user-1" "acme" "t1" 0 "pg" "ak" "sk" ⟨true, "example.com"⟩
        compensationFailsCluster).store =
      [⟨"t1", "acme", TenantStatus.ERROR, "user-1", none, none, none, 0, 0⟩] :=
  ⟨rfl, rfl⟩

/-- C1 amended: on any provisioning failure during create, the tenant row
is persisted with status Error (and never reverted, whatever the
compensating delete does), exactly one compensating namespace deletion is
issued, and the tenant is returned in Error state with accessUrl null
provided the compensating deletion succeeds; if the compensating deletion
itself throws, its error propagates to the caller instead of the
Error-state tenant being returned. -/
theorem c1_error_path_amended
    (store : List Tenant) (userId name newId : String) (now : Nat)
    (pg ak sk : String) (cfg : AppConfig) (cluster : Cluster) (e : String)
    (hfresh : ∀ t ∈ store, t.id ≠ newId)
    (hfail : (applyAll cluster (provisionCalls newId)).2 = Except.error e) :
    (createTenant store userId name newId now pg ak sk cfg cluster).store =
      store ++ [⟨newId, name, TenantStatus.ERROR, userId, none, none, none, now, now⟩] ∧
    (createTenant store userId name newId now pg ak sk cfg cluster).calls.filter
        ClusterCall.isDeleteNamespaceCall =
      [ClusterCall.deleteNamespace (getNamespaceName newId)] ∧
    (cluster.deleteNamespaceOutcome (getNamespaceName newId) = Except.ok () →
      (createTenant store userId name newId now pg ak sk cfg cluster).result =
        Except.ok ⟨newId, name, TenantStatus.ERROR, none, now, now,
          [⟨"postgresPassword", "null"⟩, ⟨"minioAccessKey", "null"⟩,
           ⟨"minioSecretKey", "null"⟩]⟩) ∧
    (∀ e2, cluster.deleteNamespaceOutcome (getNamespaceName newId) =
        Except.error e2 →
      (createTenant store userId name newId now pg ak sk cfg cluster).result =
        Except.error e2) := by
  have hfail2 : (applyAll cluster (provisionCalls
      (⟨newId, name, TenantStatus.PROVISIONING, userId, none, none, none, now, now⟩
        : Tenant).id)).2 = Except.error e := hfail
  have hupd := prismaUpdate_append_fresh store
    ⟨newId, name, TenantStatus.PROVISIONING, userId, none, none, none, now, now⟩
    (fun t => { t with status := TenantStatus.ERROR }) hfresh
  cases hdel : cluster.deleteNamespaceOutcome (getNamespaceName newId) with
  | error e2 =>
    have hdel2 : cluster.deleteNamespaceOutcome (getNamespaceName
        (⟨newId, name, TenantStatus.PROVISIONING, userId, none, none, none, now, now⟩
          : Tenant).id) = Except.error e2 := hdel
    refine ⟨?_, ?_, ?_, ?_⟩
    · simp only [createTenant, hfail2, hupd, hdel2]
    · simp only [createTenant, hfail2, hupd, hdel2]
      simp [List.filter_append, filter_isDelete_map_apply,
        ClusterCall.isDeleteNamespaceCall]
    · intro hok
      exact Except.noConfusion hok
    · intro e3 h3
      injection h3 with h4
      subst h4
      simp only [createTenant, hfail2, hupd, hdel2]
  | ok u =>
    cases u
    have hdel2 : cluster.deleteNamespaceOutcome (getNamespaceName
        (⟨newId, name, TenantStatus.PROVISIONING, userId, none, none, none, now, now⟩
          : Tenant).id) = Except.ok () := hdel
    refine ⟨?_, ?_, ?_, ?_⟩
    · simp only [createTenant, hfail2, hupd, hdel2]
    · simp only [createTenant, hfail2, hupd, hdel2]
      simp [List.filter_append, filter_isDelete_map_apply,
        ClusterCall.isDeleteNamespaceCall]
    · intro _
      simp only [createTenant, hfail2, hupd, hdel2]
      simp [mapSecrets, jsStringOfNullable]
    · intro e3 h3
      exact Except.noConfusion h3

/-- Closed witness for C1 amended: empty store, provisioning fails at the
first call, compensating delete succeeds. -/
theorem c1_error_path_amended_witness :
    (createTenant [] "user-1" "acme" "t1" 0 "pg" "ak" "sk" ⟨true, "example.com"⟩
        ⟨fun _ => Except.error "nsboom", fun _ => Except.ok ()⟩).store =
      [] ++ [⟨"t1", "acme", TenantStatus.ERROR, "user-1", none, none, none, 0, 0⟩] ∧
    (createTenant [] "user-1" "acme" "t1" 0 "pg" "ak" "sk" ⟨true, "example.com"⟩
        ⟨fun _ => Except.error "nsboom", fun _ => Except.ok ()⟩).result =
      Except.ok ⟨"t1", "acme", TenantStatus.ERROR, none, 0, 0,
        [⟨"postgresPassword", "null"⟩, ⟨"minioAccessKey", "null"⟩,
         ⟨"minioSecretKey", "null"⟩]⟩ := by
  have h := c1_error_path_amended [] "user-1" "acme" "t1" 0 "pg" "ak" "sk"
    ⟨true, "example.com"⟩ ⟨fun _ => Except.error "nsboom", fun _ => Except.ok ()⟩
    "nsboom" (by intro t ht; cases ht) rfl
  exact ⟨h.1, h.2.2.1 rfl⟩

/-- C10: on a fully successful create, the secrets of the returned dto are
computed from the tenant row as first created, whose credential columns are
still null, so all three secret values are the JS string coercion "null";
the freshly generated credentials are persisted to the store by the Ready
update but do not appear in the returned dto. -/
theorem c10_create_secrets_stale
    (store : List Tenant) (userId name newId : String) (now : Nat)
    (pg ak sk : String) (cfg : AppConfig) (cluster : Cluster)
    (hfresh : ∀ t ∈ store, t.id ≠ newId)
    (hok : (applyAll cluster (provisionCalls newId)).2 = Except.ok ()) :
    (createTenant store userId name newId now pg ak sk cfg cluster).result =
      Except.ok ⟨newId, name, TenantStatus.READY,
        some (getAccessUrl cfg newId), now, now,
        [⟨"postgresPassword", "null"⟩, ⟨"minioAccessKey", "null"⟩,
         ⟨"minioSecretKey", "null"⟩]⟩ ∧
    (createTenant store userId name newId now pg ak sk cfg cluster).store =
      store ++ [⟨newId, name, TenantStatus.READY, userId,
        some pg, some ak, some sk, now, now⟩] := by
  have hok2 : (applyAll cluster (provisionCalls
      (⟨newId, name, TenantStatus.PROVISIONING, userId, none, none, none, now, now⟩
        : Tenant).id)).2 = Except.ok () := hok
  have hupd := prismaUpdate_append_fresh store
    ⟨newId, name, TenantStatus.PROVISIONING, userId, none, none, none, now, now⟩
    (fun t => { t with
                status := TenantStatus.READY,
                postgresPassword := some pg,
                minioAccessKey := some ak,
                minioSecretKey := some sk }) hfresh
  constructor
  · simp only [createTenant, hok2, hupd]
    simp [mapSecrets, jsStringOfNullable]
  · simp only [createTenant, hok2, hupd]

/-- Closed witness for C10: empty store, all cluster calls succeed. -/
theorem c10_create_secrets_stale_witness :
    (createTenant [] "user-1" "acme" "t1" 0 "pg" "ak" "sk" ⟨true, "example.com"⟩
        allOkCluster).result =
      Except.ok ⟨"t1", "acme", TenantStatus.READY,
        some (getAccessUrl ⟨true, "example.com"⟩ "t1"), 0, 0,
        [⟨"postgresPassword", "null"⟩, ⟨"minioAccessKey", "null"⟩,
         ⟨"minioSecretKey", "null"⟩]⟩ ∧
    (createTenant [] "user-1" "acme" "t1" 0 "pg" "ak" "sk" ⟨true, "example.com"⟩
        allOkCluster).store =
      [] ++ [⟨"t1", "acme", TenantStatus.READY, "user-1",
        some "pg", some "ak", some "sk", 0, 0⟩] :=
  c10_create_secrets_stale [] "user-1" "acme" "t1" 0 "pg" "ak" "sk"
    ⟨true, "example.com"⟩ allOkCluster (by intro t ht; cases ht) rfl

end Kite
